import Mathlib

set_option linter.unusedVariables false

/-
Shallow embedding of the llama-stack file-processor providers:
  * src/llama_stack/providers/inline/file_processors/pypdf/pypdf.py
  * src/llama_stack/providers/inline/file_processors/docling/docling.py  (the "Old" variant below)
  * src/llama_stack/providers/inline/file_processor/docling/docling.py   (the "New" variant below)
External capabilities (pypdf's PdfReader, docling's DocumentConverter and
HybridChunker, the filesystem) are modelled as explicit data supplied to each
call; Python exceptions are modelled by an explicit kind and message.
-/

inductive ExcKind where
  | importError
  | attrError
  | typeError
  | valueError
  | runtimeError
  | osError
  | generic
  deriving DecidableEq

structure Exc where
  kind : ExcKind
  msg : String
  deriving DecidableEq

/-- Model of a Python value stored in an options mapping (`dict[str, Any]`). -/
inductive PyVal where
  | str (s : String)
  | bool (b : Bool)
  | int (n : Int)
  | list (l : List String)
  | nonev
  deriving DecidableEq

/-- Python truthiness, as used by `bool(value)` in option parsing. -/
def pyTruthy : PyVal → Bool
  | .str s => decide (s ≠ "")
  | .bool b => b
  | .int n => decide (n ≠ 0)
  | .list l => decide (l ≠ [])
  | .nonev => false

/-- Python `str(value)` for the modelled values. -/
def pyValToStr : PyVal → String
  | .str s => s
  | .bool b => if b then "True" else "False"
  | .int n => toString n
  | .list l => "[" ++ String.intercalate ", " l ++ "]"
  | .nonev => "None"

/-- `VectorStoreChunkingStrategy`: the `Auto` variant or the `Static` variant
with its `max_chunk_size_tokens` / `chunk_overlap_tokens` fields. -/
inductive ChunkingStrategy where
  | auto
  | static (max_chunk_size_tokens chunk_overlap_tokens : Nat)
  deriving DecidableEq

/-- Values stored in a metadata mapping (`dict[str, Any]`). -/
inductive MetaVal where
  | nat (n : Nat)
  | str (s : String)
  | bool (b : Bool)
  | pyval (v : PyVal)
  | strat (s : Option ChunkingStrategy)
  | opts (o : List (String × PyVal))
  deriving DecidableEq

/-- Association-list lookup, the model of `dict[key]` / `dict.get(key)`. -/
def alookup {α : Type} (k : String) : List (String × α) → Option α
  | [] => none
  | (a, b) :: es => if k = a then some b else alookup k es

/-- A `Chunk` object: its text content and its metadata mapping. -/
structure ChunkRec where
  content : String
  metadata : List (String × MetaVal)
  deriving DecidableEq

/-- `ProcessedContent`, parameterized by the element type of `chunks`
(the pypdf and the newer docling providers store `Chunk` objects there,
the older docling provider stores plain strings). -/
structure ProcessedContent (χ : Type) where
  content : String
  chunks : Option (List χ)
  embeddings : Option (List (List Int))
  metadata : List (String × MetaVal)
  deriving DecidableEq

/-- Modelled from the spec: the windowing loop of `make_overlapped_chunks`
(`llama_stack/providers/utils/memory/vector_store.py`; the function is not
under the provided sources, only its callers are).  Starting at offset 0 a
chunk of `window` tokens (clipped to the end) is emitted and the offset
advances by `s1 + 1` tokens; iteration stops once the text is exhausted, which
matches the spec's scenario (starts at 0, 80, 160, 240 for a 250-token text
with window 100 and overlap 20). -/
def windowLoop (window s1 : Nat) (cs : List Char) : List (List Char) :=
  match cs with
  | [] => []
  | t :: ts => List.take window (t :: ts) :: windowLoop window s1 (List.drop s1 ts)
termination_by cs.length
decreasing_by
  simp only [List.length_drop, List.length_cons]
  omega

/-- Modelled from the spec: `make_overlapped_chunks(document_id, text,
window_len, overlap_len, metadata)` from
`llama_stack/providers/utils/memory/vector_store.py` (not under the provided
sources).  Tokens are taken to be characters (the spec's token proxy).  Per the
spec, an overlap that is not smaller than the window is clamped to
`window_len - 1` before windowing, so the advance per iteration is always at
least one token.  Each emitted chunk carries the caller metadata together with
the parent document id and its 0-based chunk index. -/
def make_overlapped_chunks (document_id : String) (text : String)
    (window_len overlap_len : Nat) (metadata : List (String × MetaVal)) :
    List ChunkRec :=
  let overlapC := if overlap_len < window_len then overlap_len else window_len - 1
  let step := window_len - overlapC
  (List.enum (windowLoop window_len (step - 1) text.toList)).map
    (fun p =>
      { content := String.mk p.2
        metadata := metadata ++
          [("document_id", MetaVal.str document_id),
           ("chunk_index", MetaVal.nat p.1)] })

/-- Modelled from the spec: `extract_chunk_params_from_strategy` from
`llama_stack/providers/utils/memory/vector_store.py` (not under the provided
sources).  An `Auto` strategy picks the backend-configured defaults, a
`Static` strategy supplies its own window and overlap. -/
def extract_chunk_params_from_strategy (s : ChunkingStrategy)
    (defaultSize defaultOverlap : Nat) : Nat × Nat :=
  match s with
  | .auto => (defaultSize, defaultOverlap)
  | .static m o => (m, o)

/-- The `isinstance(chunking_strategy, VectorStoreChunkingStrategyStatic)`
pattern shared by the pypdf provider and the older docling provider: a Static
strategy supplies its own parameters, anything else (Auto) uses the hard-coded
defaults 800 / 400. -/
def staticOrDefault : ChunkingStrategy → Nat × Nat
  | .static m o => (m, o)
  | .auto => (800, 400)

/-- Behavior of one `export_to_X` method on a decoded document handle:
the attribute may be absent, the call may raise an exception of any class, or
it returns a string. -/
inductive ExpMeth where
  | absent
  | raises (e : Exc)
  | returns (s : String)
  deriving DecidableEq

/-- Behavior of a structural attribute (`pages`, `tables`, `figures`) of a
decoded document: absent, present but `len()` raises `TypeError`, or a count. -/
inductive StatAttr where
  | absent
  | lenRaises
  | count (n : Nat)
  deriving DecidableEq

/-- A decoded document handle as observed by the providers: its export
methods and its structural attributes. -/
structure DocHandle where
  export_to_markdown : ExpMeth
  export_to_html : ExpMeth
  export_to_json : ExpMeth
  export_to_text : ExpMeth
  pages : StatAttr
  tables : StatAttr
  figures : StatAttr
  deriving DecidableEq

/-- `len(getattr(document, attr)) if hasattr(document, attr) else 0`, with the
exception propagated: the pattern used inline by the older docling provider. -/
def statExc : StatAttr → Except Exc Nat
  | .absent => .ok 0
  | .lenRaises => .error { kind := .typeError, msg := "object has no len" }
  | .count n => .ok n

/-- One attribute of `_extract_document_stats` (newer docling provider):
absent or raising attributes default to 0 instead of raising. -/
def statSafe : StatAttr → Nat
  | .absent => 0
  | .lenRaises => 0
  | .count n => n

/-- `DoclingFileProcessorImpl._extract_document_stats(document,
["pages", "tables", "figures"])` of the newer docling provider. -/
def _extract_document_stats (doc : DocHandle) : Nat × Nat × Nat :=
  (statSafe doc.pages, statSafe doc.tables, statSafe doc.figures)

/-- The `export_methods` dictionary of
`DoclingFileProcessorImpl._export_document_content` (newer docling provider). -/
def export_methods : List (String × String) :=
  [("markdown", "export_to_markdown"),
   ("html", "export_to_html"),
   ("json", "export_to_json")]

/-- `getattr(document, method_name)` for the four export method names. -/
def methodOf (doc : DocHandle) : String → ExpMeth
  | "export_to_markdown" => doc.export_to_markdown
  | "export_to_html" => doc.export_to_html
  | "export_to_json" => doc.export_to_json
  | _ => doc.export_to_text

/-- Exception classes caught around export calls by the newer docling
provider: `except (AttributeError, RuntimeError)`. -/
def caughtByExportHandler : ExcKind → Bool
  | .attrError => true
  | .runtimeError => true
  | _ => false

/-- `DoclingFileProcessorImpl._export_document_content` (newer docling
provider): dictionary dispatch from the format to an export method, defaulting
to `export_to_text`; a missing method raises `AttributeError`, a method
raising `RuntimeError` is re-raised wrapped, and a method raising any other
exception class propagates it as-is (only `except RuntimeError` guards the
call). -/
def _export_document_content (doc : DocHandle) (format_type : PyVal) :
    Except Exc String :=
  let method_name :=
    match format_type with
    | PyVal.str s => (alookup s export_methods).getD "export_to_text"
    | _ => "export_to_text"
  match methodOf doc method_name with
  | .absent =>
      .error { kind := .attrError
               msg := "Document does not support " ++ pyValToStr format_type ++ " export" }
  | .raises e =>
      if e.kind = ExcKind.runtimeError then
        .error { kind := .runtimeError
                 msg := "Failed to export document as " ++ pyValToStr format_type ++ ": " ++ e.msg }
      else .error e
  | .returns s => .ok s

/-- Behavior of the native `HybridChunker` on the current document: the
`chunker.chunk(...)` call raises, iterating / `contextualize` raises, or the
iteration yields a list of chunk texts. -/
inductive NativeChunkerBehavior where
  | chunkCallRaises (e : Exc)
  | iterRaises (e : Exc)
  | yields (texts : List String)
  deriving DecidableEq

/-- `DoclingConfig`: the fields the chunking paths read. -/
structure DoclingConfig where
  default_chunk_size_tokens : Nat
  default_chunk_overlap_tokens : Nat
  deriving DecidableEq

/-- Exception classes caught by the newer docling provider's chunking
fallback handlers: `(AttributeError, TypeError, ValueError)`. -/
def caughtByChunkFallback : ExcKind → Bool
  | .attrError => true
  | .typeError => true
  | .valueError => true
  | _ => false

/-- The export-method selection of the older docling provider's
`_fallback_text_chunking`: `export_to_markdown` for the `"markdown"` format,
`export_to_text` for everything else. -/
def doclingOld_fallback_export (doc : DocHandle) (format_type : PyVal) : ExpMeth :=
  if format_type = PyVal.str "markdown" then doc.export_to_markdown
  else doc.export_to_text

/-- `DoclingFileProcessorImpl._fallback_text_chunking` of the older
(`file_processors`) docling provider: the whole body is guarded by
`except Exception`, so an export failure or a raising structural attribute
yields `([], 0)`; otherwise the windower runs and each chunk is converted to
its text content. -/
def doclingOld_fallback_text_chunking (doc : DocHandle)
    (chunking_strategy : ChunkingStrategy) (format_type : PyVal) :
    List String × Nat :=
  match doclingOld_fallback_export doc format_type with
  | .absent => ([], 0)
  | .raises _ => ([], 0)
  | .returns text =>
    let p := staticOrDefault chunking_strategy
    match statExc doc.pages, statExc doc.tables, statExc doc.figures with
    | .ok pg, .ok tb, .ok fg =>
        let cs := make_overlapped_chunks "docling_document" text p.1 p.2
          [("processor", MetaVal.str "docling_fallback"),
           ("pages", MetaVal.nat pg),
           ("tables", MetaVal.nat tb),
           ("figures", MetaVal.nat fg)]
        (cs.map ChunkRec.content, cs.length)
    | _, _, _ => ([], 0)

/-- `DoclingFileProcessorImpl._create_docling_chunks` of the older
(`file_processors`) docling provider: no chunker or any exception in the
native path falls back to `_fallback_text_chunking`; a successful native
iteration returns the contextualized texts. -/
def doclingOld_create_docling_chunks (hasChunker : Bool)
    (native : NativeChunkerBehavior) (doc : DocHandle)
    (chunking_strategy : ChunkingStrategy) (format_type : PyVal) :
    List String × Nat :=
  if hasChunker = false then
    doclingOld_fallback_text_chunking doc chunking_strategy format_type
  else
    match native with
    | .chunkCallRaises _ =>
        doclingOld_fallback_text_chunking doc chunking_strategy format_type
    | .iterRaises _ =>
        doclingOld_fallback_text_chunking doc chunking_strategy format_type
    | .yields ts => (ts, ts.length)

/-- `DoclingFileProcessorImpl._fallback_text_chunking` of the newer
(`file_processor`) docling provider: export via `_export_document_content`,
whose `AttributeError` / `RuntimeError` are the only classes caught (yielding
`([], 0)`); an export exception of any other class propagates out of the
fallback — it is not absorbed.  On success the structural stats are extracted
safely and the windower runs. -/
def doclingNew_fallback_text_chunking (cfg : DoclingConfig) (doc : DocHandle)
    (chunking_strategy : ChunkingStrategy) (format_type : PyVal) :
    Except Exc (List ChunkRec × Nat) :=
  match _export_document_content doc format_type with
  | .error e => if caughtByExportHandler e.kind then .ok ([], 0) else .error e
  | .ok text =>
    let p := extract_chunk_params_from_strategy chunking_strategy
      cfg.default_chunk_size_tokens cfg.default_chunk_overlap_tokens
    let st := _extract_document_stats doc
    let cs := make_overlapped_chunks "docling_document" text p.1 p.2
      [("processor", MetaVal.str "docling_fallback"),
       ("pages", MetaVal.nat st.1),
       ("tables", MetaVal.nat st.2.1),
       ("figures", MetaVal.nat st.2.2)]
    .ok (cs, cs.length)

/-- `DoclingFileProcessorImpl._create_docling_chunks` of the newer
(`file_processor`) docling provider: a missing chunker delegates to the
fallback; a native call or iteration raising `AttributeError`, `TypeError` or
`ValueError` delegates to the fallback; any other native exception propagates;
a successful iteration is returned as `Chunk` objects (even when it is empty).
The delegation is bare (`return self._fallback_text_chunking(...)`), so an
exception raised by the fallback itself propagates too. -/
def doclingNew_create_docling_chunks (cfg : DoclingConfig)
    (chunker : Option NativeChunkerBehavior) (doc : DocHandle)
    (chunking_strategy : ChunkingStrategy) (format_type : PyVal) :
    Except Exc (List ChunkRec × Nat) :=
  match chunker with
  | none => doclingNew_fallback_text_chunking cfg doc chunking_strategy format_type
  | some (.chunkCallRaises e) =>
      if caughtByChunkFallback e.kind then
        doclingNew_fallback_text_chunking cfg doc chunking_strategy format_type
      else .error e
  | some (.iterRaises e) =>
      if caughtByChunkFallback e.kind then
        doclingNew_fallback_text_chunking cfg doc chunking_strategy format_type
      else .error e
  | some (.yields ts) =>
      let cs := (List.enum ts).map
        (fun p =>
          ({ content := p.2
             metadata := [("chunk_index", MetaVal.nat p.1),
                          ("processor", MetaVal.str "docling_hybrid"),
                          ("format", MetaVal.pyval format_type)] } : ChunkRec))
      .ok (cs, cs.length)

/-- `_parse_docling_options` of the older (`file_processors`) docling
provider: the `format` value is kept as-is, the boolean options are coerced
with `bool(...)`, `ocr_languages` is kept only when it is a list. -/
def parse_docling_options_old (options : List (String × PyVal)) :
    List (String × PyVal) :=
  if options = [] then [] else
    (match alookup "format" options with
     | some v => [("output_format", v)]
     | none => []) ++
    (match alookup "extract_tables" options with
     | some v => [("extract_tables", PyVal.bool (pyTruthy v))]
     | none => []) ++
    (match alookup "extract_figures" options with
     | some v => [("extract_figures", PyVal.bool (pyTruthy v))]
     | none => []) ++
    (match alookup "ocr_enabled" options with
     | some v => [("ocr_enabled", PyVal.bool (pyTruthy v))]
     | none => []) ++
    (match alookup "ocr_languages" options with
     | some (PyVal.list l) => [("ocr_languages", PyVal.list l)]
     | _ => []) ++
    (match alookup "preserve_layout" options with
     | some v => [("preserve_layout", PyVal.bool (pyTruthy v))]
     | none => [])

/-- `_parse_docling_options` of the newer (`file_processor`) docling provider:
same table, but the `format` value goes through the `str` transform. -/
def parse_docling_options_new (options : List (String × PyVal)) :
    List (String × PyVal) :=
  if options = [] then [] else
    (match alookup "format" options with
     | some v => [("output_format", PyVal.str (pyValToStr v))]
     | none => []) ++
    (match alookup "extract_tables" options with
     | some v => [("extract_tables", PyVal.bool (pyTruthy v))]
     | none => []) ++
    (match alookup "extract_figures" options with
     | some v => [("extract_figures", PyVal.bool (pyTruthy v))]
     | none => []) ++
    (match alookup "ocr_enabled" options with
     | some v => [("ocr_enabled", PyVal.bool (pyTruthy v))]
     | none => []) ++
    (match alookup "ocr_languages" options with
     | some (PyVal.list l) => [("ocr_languages", PyVal.list l)]
     | _ => []) ++
    (match alookup "preserve_layout" options with
     | some v => [("preserve_layout", PyVal.bool (pyTruthy v))]
     | none => [])

/-- Result of constructing `pypdf.PdfReader(io.BytesIO(file_data))` and
extracting the page texts: the pypdf library may be missing (the import is
inside `process_file`), reading may raise, or it yields the page texts. -/
inductive PdfReaderResult where
  | notInstalled
  | readFails (e : Exc)
  | pages (pageTexts : List String)
  deriving DecidableEq

/-- `PyPDFConfig`: the fields relevant to chunking. -/
structure PyPDFConfig where
  default_chunk_size_tokens : Nat
  default_chunk_overlap_tokens : Nat
  deriving DecidableEq

/-- The pypdf backend instance; `__init__` only stores the configuration and
probes no external capability. -/
structure PyPDFBackend where
  config : PyPDFConfig
  deriving DecidableEq

/-- `PyPDFFileProcessorImpl.__init__`: always succeeds. -/
def pypdf_init (config : PyPDFConfig) : PyPDFBackend := { config := config }

/-- The external world of one pypdf `process_file` call: the reader outcome
and the elapsed wall time recorded in the metadata. -/
structure PyPDFWorld where
  reader : PdfReaderResult
  elapsed : Nat
  deriving DecidableEq

/-- `PyPDFFileProcessorImpl.process_file`: decode via `PdfReader`, join the
page texts, optionally window-chunk, assemble the result; an `ImportError`
anywhere in the body raises the "not installed" `RuntimeError`, any other
exception is wrapped into `RuntimeError("PyPDF processing failed: ...")`.
The payload is never validated for emptiness. -/
def pypdf_process_file (w : PyPDFWorld) (file_data : List Nat) (filename : String)
    (options : List (String × PyVal)) (chunking_strategy : Option ChunkingStrategy)
    (include_embeddings : Bool) : Except Exc (ProcessedContent ChunkRec) :=
  match w.reader with
  | .notInstalled =>
      .error { kind := .runtimeError, msg := "PyPDF not installed. Run: pip install pypdf" }
  | .readFails e =>
      if e.kind = ExcKind.importError then
        .error { kind := .runtimeError, msg := "PyPDF not installed. Run: pip install pypdf" }
      else
        .error { kind := .runtimeError, msg := "PyPDF processing failed: " ++ e.msg }
  | .pages pageTexts =>
      let text := String.intercalate "\n" pageTexts
      let cc : Option (List ChunkRec) × Nat :=
        match chunking_strategy with
        | none => (none, 0)
        | some st =>
            let p := staticOrDefault st
            let cs := make_overlapped_chunks filename text p.1 p.2
              [("filename", MetaVal.str filename),
               ("processor", MetaVal.str "pypdf"),
               ("pages", MetaVal.nat pageTexts.length)]
            (some cs, cs.length)
      .ok { content := text
            chunks := cc.1
            embeddings := none
            metadata :=
              [("pages", MetaVal.nat pageTexts.length),
               ("processor", MetaVal.str "pypdf"),
               ("processing_time_seconds", MetaVal.nat w.elapsed),
               ("content_length", MetaVal.nat text.length),
               ("filename", MetaVal.str filename),
               ("file_size_bytes", MetaVal.nat file_data.length),
               ("chunking_strategy", MetaVal.strat chunking_strategy),
               ("chunk_count", MetaVal.nat cc.2),
               ("include_embeddings", MetaVal.bool include_embeddings)] }

/-- Outcome of `self.converter.convert(tmp_path)`: a raised exception, a
result lacking a `document` (the newer provider checks this explicitly; the
older one hits `AttributeError` on use), or a decoded document handle. -/
inductive ConvertOutcome where
  | raises (e : Exc)
  | invalid
  | ok (doc : DocHandle)
  deriving DecidableEq

/-- The external world of one docling `process_file` call. `tmpCreate` /
`tmpWrite` are `some errorMessage` when creating, respectively writing, the
scratch temporary file raises `OSError`. -/
structure DoclingWorld where
  doclingInstalled : Bool
  converterInit : Option Exc
  chunkingInstalled : Bool
  tmpCreate : Option String
  tmpWrite : Option String
  convert : ConvertOutcome
  native : NativeChunkerBehavior
  version : String
  elapsed : Nat
  deriving DecidableEq

/-- The docling backend instance after a successful `__init__`: the converter
is present; the optional `HybridChunker` may or may not be. -/
structure DoclingBackend where
  hasChunker : Bool
  deriving DecidableEq

/-- Scratch temporary file bookkeeping of one `process_file` call: whether the
file was created on disk, and whether `tmp_path.unlink()` was invoked. -/
structure TempState where
  created : Bool
  deleted : Bool
  deriving DecidableEq

/-- `DoclingFileProcessorImpl._initialize_docling` of the older
(`file_processors`) docling provider, as invoked by `__init__`: a missing
docling raises `ImportError`, a failing `DocumentConverter()` raises a
wrapped `RuntimeError` (unless it raised `ImportError`, which the first
`except` clause catches); a missing chunking extra only disables the chunker. -/
def doclingOld_init (w : DoclingWorld) : Except Exc DoclingBackend :=
  if w.doclingInstalled = false then
    .error { kind := .importError, msg := "Docling not installed. Run: pip install docling" }
  else
    match w.converterInit with
    | some e =>
        if e.kind = ExcKind.importError then
          .error { kind := .importError, msg := "Docling not installed. Run: pip install docling" }
        else
          .error { kind := .runtimeError
                   msg := "Failed to initialize Docling DocumentConverter: " ++ e.msg }
    | none => .ok { hasChunker := w.chunkingInstalled }

/-- The older provider's content export (inline `if/elif` dispatch in
`process_file`): markdown, html and json select their methods, anything else
selects `export_to_text`; a missing method raises `AttributeError`, a raising
method propagates its exception (no local handler; the caller's catch-all
wraps it). -/
def doclingOld_export (doc : DocHandle) (format_type : PyVal) : Except Exc String :=
  let m :=
    if format_type = PyVal.str "markdown" then doc.export_to_markdown
    else if format_type = PyVal.str "html" then doc.export_to_html
    else if format_type = PyVal.str "json" then doc.export_to_json
    else doc.export_to_text
  match m with
  | .absent => .error { kind := .attrError, msg := "document object has no export attribute" }
  | .raises e => .error e
  | .returns s => .ok s

/-- The older provider's catch-all `except Exception` wrapper around
`process_file`. -/
def doclingOld_wrap (e : Exc) : Exc :=
  { kind := .runtimeError, msg := "Docling processing failed: " ++ e.msg }

/-- The part of the older provider's `process_file` try-block that runs on a
successfully converted document: export, optional chunking and metadata
assembly (exceptions still unwrapped). -/
def doclingOld_afterConvert (b : DoclingBackend) (w : DoclingWorld)
    (file_data : List Nat) (filename : String) (options : List (String × PyVal))
    (chunking_strategy : Option ChunkingStrategy) (include_embeddings : Bool)
    (doc : DocHandle) : Except Exc (ProcessedContent String) :=
  let format_type := (alookup "format" options).getD (PyVal.str "markdown")
  match doclingOld_export doc format_type with
  | .error e => .error e
  | .ok content =>
    let cc : Option (List String) × Nat :=
      match chunking_strategy with
      | none => (none, 0)
      | some st =>
          let r := doclingOld_create_docling_chunks b.hasChunker w.native doc st format_type
          (some r.1, r.2)
    match statExc doc.pages, statExc doc.tables, statExc doc.figures with
    | .ok pg, .ok tb, .ok fg =>
        .ok { content := content
              chunks := cc.1
              embeddings := none
              metadata :=
                [("pages", MetaVal.nat pg),
                 ("tables", MetaVal.nat tb),
                 ("figures", MetaVal.nat fg),
                 ("format", MetaVal.pyval format_type),
                 ("processor", MetaVal.str "docling"),
                 ("processing_time_seconds", MetaVal.nat w.elapsed),
                 ("content_length", MetaVal.nat content.length),
                 ("filename", MetaVal.str filename),
                 ("file_size_bytes", MetaVal.nat file_data.length),
                 ("converter_options", MetaVal.opts (parse_docling_options_old options)),
                 ("chunking_strategy", MetaVal.strat chunking_strategy),
                 ("chunk_count", MetaVal.nat cc.2),
                 ("include_embeddings", MetaVal.bool include_embeddings),
                 ("docling_version", MetaVal.str w.version)] }
    | .error e, _, _ => .error e
    | _, .error e, _ => .error e
    | _, _, .error e => .error e

/-- `DoclingFileProcessorImpl.process_file` of the older (`file_processors`)
docling provider, paired with the scratch-file state.  The payload is not
validated for emptiness.  Every exception escaping the body is wrapped once by
the catch-all `except Exception`.  The inner `try/finally` unlinks the
temporary file, but a failure while writing the payload happens before that
`try`, so the created file is not unlinked on that path. -/
def doclingOld_process_file (b : DoclingBackend) (w : DoclingWorld)
    (file_data : List Nat) (filename : String) (options : List (String × PyVal))
    (chunking_strategy : Option ChunkingStrategy) (include_embeddings : Bool) :
    Except Exc (ProcessedContent String) × TempState :=
  match w.tmpCreate with
  | some m =>
      (.error (doclingOld_wrap { kind := .osError, msg := m }),
       { created := false, deleted := false })
  | none =>
  match w.tmpWrite with
  | some m =>
      (.error (doclingOld_wrap { kind := .osError, msg := m }),
       { created := true, deleted := false })
  | none =>
  let tempDone : TempState := { created := true, deleted := true }
  match w.convert with
  | .raises e => (.error (doclingOld_wrap e), tempDone)
  | .invalid =>
      (.error (doclingOld_wrap
        { kind := .attrError, msg := "ConversionResult object has no document" }), tempDone)
  | .ok doc =>
    match doclingOld_afterConvert b w file_data filename options chunking_strategy
        include_embeddings doc with
    | .error e => (.error (doclingOld_wrap e), tempDone)
    | .ok r => (.ok r, tempDone)

/-- The newer provider's `except` ladder at the end of `process_file`:
`ImportError` and `OSError` get dedicated wrappers, `RuntimeError` is
re-raised as-is, anything else becomes the unexpected-error wrapper. -/
def doclingNew_wrap (e : Exc) : Exc :=
  match e.kind with
  | .importError => { kind := .runtimeError, msg := "Missing dependencies for processing: " ++ e.msg }
  | .osError => { kind := .runtimeError, msg := "File I/O error: " ++ e.msg }
  | .runtimeError => e
  | _ => { kind := .runtimeError, msg := "Unexpected error processing file: " ++ e.msg }

/-- The export step of the newer provider's `process_file`: a failure of the
classes `except (AttributeError, RuntimeError)` catches becomes the
filename-carrying export `RuntimeError`; any other exception class raised by
the export method propagates as-is. -/
def doclingNew_export_stage (doc : DocHandle) (filename : String)
    (format_type : PyVal) : Except Exc String :=
  match _export_document_content doc format_type with
  | .error e =>
      if caughtByExportHandler e.kind then
        .error { kind := .runtimeError
                 msg := "Export failed for " ++ filename ++ ": " ++ e.msg }
      else .error e
  | .ok content => .ok content

/-- The part of the newer provider's `process_file` try-block that runs on a
successfully converted document: the export step, optional chunking (whose
uncaught exceptions, including one escaping the fallback, propagate), and
metadata assembly.  The
`except` ladder of `process_file` wraps whatever error escapes here. -/
def doclingNew_afterConvert (cfg : DoclingConfig) (b : DoclingBackend)
    (w : DoclingWorld) (file_data : List Nat) (filename : String)
    (options : List (String × PyVal)) (chunking_strategy : Option ChunkingStrategy)
    (include_embeddings : Bool) (doc : DocHandle) :
    Except Exc (ProcessedContent ChunkRec) :=
  let format_type := (alookup "format" options).getD (PyVal.str "markdown")
  match doclingNew_export_stage doc filename format_type with
  | .error e => .error e
  | .ok content =>
    let chunkerOpt : Option NativeChunkerBehavior :=
      if b.hasChunker then some w.native else none
    let ccE : Except Exc (Option (List ChunkRec) × Nat) :=
      match chunking_strategy with
      | none => .ok (none, 0)
      | some st =>
          match doclingNew_create_docling_chunks cfg chunkerOpt doc st format_type with
          | .ok r => .ok (some r.1, r.2)
          | .error e => .error e
    match ccE with
    | .error e => .error e
    | .ok cc =>
      let st3 := _extract_document_stats doc
      .ok { content := content
            chunks := cc.1
            embeddings := none
            metadata :=
              [("pages", MetaVal.nat st3.1),
               ("tables", MetaVal.nat st3.2.1),
               ("figures", MetaVal.nat st3.2.2),
               ("format", MetaVal.pyval format_type),
               ("processor", MetaVal.str "docling"),
               ("processing_time_seconds", MetaVal.nat w.elapsed),
               ("content_length", MetaVal.nat content.length),
               ("filename", MetaVal.str filename),
               ("file_size_bytes", MetaVal.nat file_data.length),
               ("converter_options", MetaVal.opts (parse_docling_options_new options)),
               ("chunk_count", MetaVal.nat cc.2),
               ("include_embeddings", MetaVal.bool include_embeddings),
               ("docling_version", MetaVal.str w.version),
               ("chunking_strategy", MetaVal.strat chunking_strategy)] }

/-- `DoclingFileProcessorImpl.process_file` of the newer (`file_processor`)
docling provider, paired with the scratch-file state.  An empty payload
raises `ValueError` before any temporary file exists.  Creating or writing the
scratch file raises the temporary-file `RuntimeError`; a write failure leaves
the already-created file behind, since the unlinking `finally` only guards the
conversion stage. -/
def doclingNew_process_file (cfg : DoclingConfig) (b : DoclingBackend)
    (w : DoclingWorld) (file_data : List Nat) (filename : String)
    (options : List (String × PyVal)) (chunking_strategy : Option ChunkingStrategy)
    (include_embeddings : Bool) :
    Except Exc (ProcessedContent ChunkRec) × TempState :=
  if file_data.length = 0 then
    (.error { kind := .valueError, msg := "Empty file data after processing" },
     { created := false, deleted := false })
  else
  match w.tmpCreate with
  | some m =>
      (.error { kind := .runtimeError, msg := "Failed to create temporary file: " ++ m },
       { created := false, deleted := false })
  | none =>
  match w.tmpWrite with
  | some m =>
      (.error { kind := .runtimeError, msg := "Failed to create temporary file: " ++ m },
       { created := true, deleted := false })
  | none =>
  let tempDone : TempState := { created := true, deleted := true }
  match w.convert with
  | .raises e => (.error (doclingNew_wrap e), tempDone)
  | .invalid =>
      (.error { kind := .runtimeError, msg := "Invalid conversion result for " ++ filename },
       tempDone)
  | .ok doc =>
    match doclingNew_afterConvert cfg b w file_data filename options chunking_strategy
        include_embeddings doc with
    | .error e => (.error (doclingNew_wrap e), tempDone)
    | .ok r => (.ok r, tempDone)

/-- Whether the character list `p` occurs at the head of `s`. -/
def listStartsWith : List Char → List Char → Bool
  | [], _ => true
  | _ :: _, [] => false
  | a :: as, b :: bs => a == b && listStartsWith as bs

/-- Whether the character list `needle` occurs anywhere inside `hay`. -/
def listContainsSub (needle : List Char) : List Char → Bool
  | [] => listStartsWith needle []
  | c :: t => listStartsWith needle (c :: t) || listContainsSub needle t

/-- Whether the string `needle` occurs as a substring of `hay`. -/
def strContainsStr (hay needle : String) : Bool :=
  listContainsSub needle.toList hay.toList

/-- Number of chunks of an optional chunk sequence, with `null` counting 0. -/
def optLen {χ : Type} : Option (List χ) → Nat
  | none => 0
  | some l => l.length

theorem windowLoop_length (window s1 : Nat) (cs : List Char) :
    (windowLoop window s1 cs).length = (cs.length + s1) / (s1 + 1) := by
  induction cs using windowLoop.induct window s1 with
  | case1 => simp [windowLoop, Nat.div_eq_of_lt (Nat.lt_succ_self s1)]
  | case2 t ts ih =>
    rw [windowLoop]
    simp only [List.length_cons, ih, List.length_drop]
    rw [show ts.length + 1 + s1 = ts.length + (s1 + 1) from by omega,
        Nat.add_div_right _ (Nat.succ_pos s1)]
    rcases Nat.le_total s1 ts.length with hle | hle
    · rw [Nat.sub_add_cancel hle]
    · have h0 : ts.length - s1 = 0 := by omega
      rw [h0, Nat.zero_add, Nat.div_eq_of_lt (by omega), Nat.div_eq_of_lt (by omega)]

theorem string_toList_length (s : String) : s.toList.length = s.length := rfl

theorem make_overlapped_chunks_length (document_id text : String)
    (window_len overlap_len : Nat) (metadata : List (String × MetaVal))
    (hw : 0 < window_len) :
    (make_overlapped_chunks document_id text window_len overlap_len metadata).length =
      (text.length + max 1 (window_len - overlap_len) - 1) /
        max 1 (window_len - overlap_len) := by
  unfold make_overlapped_chunks
  simp only [List.length_map, List.enum_length, windowLoop_length, string_toList_length]
  by_cases hlt : overlap_len < window_len
  · simp only [if_pos hlt]
    have hM : max 1 (window_len - overlap_len) = window_len - overlap_len :=
      Nat.max_eq_right (by omega)
    rw [hM]
    have h1 : window_len - overlap_len - 1 + 1 = window_len - overlap_len := by omega
    have h2 : text.length + (window_len - overlap_len - 1) =
        text.length + (window_len - overlap_len) - 1 := by omega
    rw [h1, h2]
  · simp only [if_neg hlt]
    have hM : max 1 (window_len - overlap_len) = 1 := by
      have : window_len - overlap_len = 0 := by omega
      rw [this]
      simp
    have h1 : window_len - (window_len - 1) - 1 = 0 := by omega
    rw [hM, h1]
    omega

theorem make_overlapped_chunks_eq_nil_iff (document_id text : String)
    (window_len overlap_len : Nat) (metadata : List (String × MetaVal)) :
    make_overlapped_chunks document_id text window_len overlap_len metadata = [] ↔
      text = "" := by
  unfold make_overlapped_chunks
  cases text with
  | mk data =>
    cases data with
    | nil => simp [windowLoop, String.toList]
    | cons c cs =>
      simp only [String.toList]
      rw [windowLoop]
      constructor
      · intro h
        simp [List.enum_cons] at h
      · intro h
        have hd := congrArg String.data h
        simp at hd

/-- C1: with a Static strategy whose overlap is at least the window size, the
windower clamps the overlap to `window_len - 1` (the two calls agree), the
loop terminates, and for any `window_len > 0` it emits exactly
`ceil(len(text) / max(1, window_len - overlap_len))` chunks, hence at most
that many iterations. -/
theorem C1_static_overlap_clamped_and_bounded (document_id text : String)
    (window_len overlap_len : Nat) (metadata : List (String × MetaVal))
    (hw : 0 < window_len) :
    (window_len ≤ overlap_len →
      make_overlapped_chunks document_id text window_len overlap_len metadata =
        make_overlapped_chunks document_id text window_len (window_len - 1) metadata) ∧
    (make_overlapped_chunks document_id text window_len overlap_len metadata).length =
      (text.length + max 1 (window_len - overlap_len) - 1) /
        max 1 (window_len - overlap_len) := by
  constructor
  · intro hle
    unfold make_overlapped_chunks
    have h1 : ¬ overlap_len < window_len := by omega
    have h2 : window_len - 1 < window_len := by omega
    rw [if_neg h1, if_pos h2]
  · exact make_overlapped_chunks_length _ _ _ _ _ hw

/-- C1 witness: the theorem at window 2, overlap 5 on a 4-character text. -/
theorem C1_witness :
    (2 ≤ 5 →
      make_overlapped_chunks "doc" "abcd" 2 5 [] =
        make_overlapped_chunks "doc" "abcd" 2 1 []) ∧
    (make_overlapped_chunks "doc" "abcd" 2 5 []).length =
      (String.length "abcd" + max 1 (2 - 5) - 1) / max 1 (2 - 5) :=
  C1_static_overlap_clamped_and_bounded "doc" "abcd" 2 5 [] (by decide)

/-- C2 counterexample: the native chunker succeeds but yields zero chunks; the
newer provider's chunk operation returns `([], 0)` as-is instead of falling
back, even though the fallback windower would produce two chunks from the
exported text, so the returned result does not contain fallback-produced
chunks. -/
theorem C2_counterexample :
    doclingNew_create_docling_chunks ⟨800, 400⟩ (some (.yields []))
      ⟨.absent, .absent, .absent, .returns "abcd", .count 1, .count 0, .count 0⟩
      (.static 3 1) (PyVal.str "text") = .ok ([], 0) ∧
    (doclingNew_fallback_text_chunking ⟨800, 400⟩
      ⟨.absent, .absent, .absent, .returns "abcd", .count 1, .count 0, .count 0⟩
      (.static 3 1) (PyVal.str "text")).map (fun p => p.2) = .ok 2 := by
  constructor
  · rfl
  · simp [doclingNew_fallback_text_chunking, _export_document_content, alookup,
      export_methods, methodOf, extract_chunk_params_from_strategy,
      _extract_document_stats, statSafe, make_overlapped_chunks, windowLoop,
      String.toList, Except.map]

/-- C2 (amended): whenever the native structure-aware path fails by absence of
the chunker capability or by an exception the provider handles (any exception
in the older provider, `AttributeError` / `TypeError` / `ValueError` in the
newer one) while invoking or iterating it, the chunk operation falls back
deterministically to the generic overlap windower over exported text (with
page/table/figure counts defaulting to 0 when unavailable); an empty native
result, however, is returned as `([], 0)` without fallback. -/
theorem C2_native_failure_falls_back (cfg : DoclingConfig) (doc : DocHandle)
    (strategy : ChunkingStrategy) (fmt : PyVal) (e : Exc)
    (nb : NativeChunkerBehavior) :
    (doclingNew_create_docling_chunks cfg none doc strategy fmt =
       doclingNew_fallback_text_chunking cfg doc strategy fmt) ∧
    (caughtByChunkFallback e.kind = true →
       doclingNew_create_docling_chunks cfg (some (.chunkCallRaises e)) doc strategy fmt =
         doclingNew_fallback_text_chunking cfg doc strategy fmt ∧
       doclingNew_create_docling_chunks cfg (some (.iterRaises e)) doc strategy fmt =
         doclingNew_fallback_text_chunking cfg doc strategy fmt) ∧
    (doclingOld_create_docling_chunks false nb doc strategy fmt =
       doclingOld_fallback_text_chunking doc strategy fmt) ∧
    (doclingOld_create_docling_chunks true (.chunkCallRaises e) doc strategy fmt =
       doclingOld_fallback_text_chunking doc strategy fmt) ∧
    (doclingOld_create_docling_chunks true (.iterRaises e) doc strategy fmt =
       doclingOld_fallback_text_chunking doc strategy fmt) := by
  refine ⟨rfl, fun h => ?_, rfl, rfl, rfl⟩
  constructor <;> simp [doclingNew_create_docling_chunks, h]

/-- C2 witness: the amended theorem at a chunker raising `TypeError`. -/
theorem C2_witness :
    doclingNew_create_docling_chunks ⟨800, 400⟩
      (some (.chunkCallRaises ⟨.typeError, "boom"⟩))
      ⟨.absent, .absent, .absent, .returns "xy", .absent, .absent, .absent⟩
      .auto PyVal.nonev =
      doclingNew_fallback_text_chunking ⟨800, 400⟩
        ⟨.absent, .absent, .absent, .returns "xy", .absent, .absent, .absent⟩
        .auto PyVal.nonev :=
  ((C2_native_failure_falls_back ⟨800, 400⟩
      ⟨.absent, .absent, .absent, .returns "xy", .absent, .absent, .absent⟩
      .auto PyVal.nonev ⟨.typeError, "boom"⟩ (.yields [])).2.1 (by decide)).1

/-- C3 counterexample: the claim fails in two ways.  A document whose
plain-text export raises `ValueError` makes the newer provider's fallback
chunking raise — the exception passes through its
`except (AttributeError, RuntimeError)` untouched — instead of never raising;
and a document whose plain-text export succeeds with the empty string makes
the fallback return `([], 0)` although exporting did not fail. -/
theorem C3_counterexample :
    doclingNew_fallback_text_chunking ⟨800, 400⟩
      ⟨.absent, .absent, .absent, .raises ⟨.valueError, "bad encoding"⟩,
       .count 0, .count 0, .count 0⟩
      (.static 3 1) (PyVal.str "text") =
      .error ⟨.valueError, "bad encoding"⟩ ∧
    doclingNew_fallback_text_chunking ⟨800, 400⟩
      ⟨.absent, .absent, .absent, .returns "", .count 0, .count 0, .count 0⟩
      (.static 3 1) (PyVal.str "text") = .ok ([], 0) ∧
    _export_document_content
      ⟨.absent, .absent, .absent, .returns "", .count 0, .count 0, .count 0⟩
      (PyVal.str "text") = .ok "" := by
  refine ⟨rfl, ?_, rfl⟩
  simp [doclingNew_fallback_text_chunking, _export_document_content, alookup,
    export_methods, methodOf, extract_chunk_params_from_strategy,
    _extract_document_stats, statSafe, make_overlapped_chunks, windowLoop,
    String.toList, caughtByExportHandler]

/-- C3 (amended): the older (file_processors) fallback never raises — its body
is guarded by a catch-all — and returns `([], 0)` exactly when its export
fails, when a structural attribute read raises, or when the exported text is
empty.  The newer (file_processor) fallback absorbs only export failures of
the handled classes (`AttributeError`, `RuntimeError`) into `([], 0)`; an
export exception of any other class propagates out of the fallback, so it can
raise; on successful export it returns exactly the windower's chunks, and it
returns `([], 0)` only when a handled export failure occurred or the exported
text is empty. -/
theorem C3_fallback_raise_and_empty_characterized (cfg : DoclingConfig)
    (doc : DocHandle) (strategy : ChunkingStrategy) (fmt : PyVal) :
    (∀ e, _export_document_content doc fmt = .error e →
        caughtByExportHandler e.kind = true →
        doclingNew_fallback_text_chunking cfg doc strategy fmt = .ok ([], 0)) ∧
    (∀ e, _export_document_content doc fmt = .error e →
        caughtByExportHandler e.kind = false →
        doclingNew_fallback_text_chunking cfg doc strategy fmt = .error e) ∧
    (∀ text, _export_document_content doc fmt = .ok text →
        doclingNew_fallback_text_chunking cfg doc strategy fmt =
          .ok (let p := extract_chunk_params_from_strategy strategy
                 cfg.default_chunk_size_tokens cfg.default_chunk_overlap_tokens
               let st := _extract_document_stats doc
               let cs := make_overlapped_chunks "docling_document" text p.1 p.2
                 [("processor", MetaVal.str "docling_fallback"),
                  ("pages", MetaVal.nat st.1),
                  ("tables", MetaVal.nat st.2.1),
                  ("figures", MetaVal.nat st.2.2)]
               (cs, cs.length))) ∧
    (∀ text, _export_document_content doc fmt = .ok text →
        doclingNew_fallback_text_chunking cfg doc strategy fmt = .ok ([], 0) →
        text = "") ∧
    (doclingOld_fallback_export doc fmt = ExpMeth.absent →
        doclingOld_fallback_text_chunking doc strategy fmt = ([], 0)) ∧
    (∀ e, doclingOld_fallback_export doc fmt = ExpMeth.raises e →
        doclingOld_fallback_text_chunking doc strategy fmt = ([], 0)) ∧
    (∀ text pg tb fg, doclingOld_fallback_export doc fmt = ExpMeth.returns text →
        statExc doc.pages = .ok pg → statExc doc.tables = .ok tb →
        statExc doc.figures = .ok fg →
        doclingOld_fallback_text_chunking doc strategy fmt =
          (let p := staticOrDefault strategy
           let cs := make_overlapped_chunks "docling_document" text p.1 p.2
             [("processor", MetaVal.str "docling_fallback"),
              ("pages", MetaVal.nat pg),
              ("tables", MetaVal.nat tb),
              ("figures", MetaVal.nat fg)]
           (cs.map ChunkRec.content, cs.length))) ∧
    (∀ text, doclingOld_fallback_export doc fmt = ExpMeth.returns text →
        doclingOld_fallback_text_chunking doc strategy fmt = ([], 0) →
        doc.pages = StatAttr.lenRaises ∨ doc.tables = StatAttr.lenRaises ∨
          doc.figures = StatAttr.lenRaises ∨ text = "") := by
  refine ⟨?_, ?_, ?_, ?_, ?_, ?_, ?_, ?_⟩
  · intro e he hc
    unfold doclingNew_fallback_text_chunking
    rw [he]
    simp [hc]
  · intro e he hc
    unfold doclingNew_fallback_text_chunking
    rw [he]
    simp [hc]
  · intro text he
    unfold doclingNew_fallback_text_chunking
    rw [he]
  · intro text he h
    unfold doclingNew_fallback_text_chunking at h
    rw [he] at h
    simp only [Except.ok.injEq, Prod.mk.injEq] at h
    exact (make_overlapped_chunks_eq_nil_iff _ _ _ _ _).mp h.1
  · intro he
    unfold doclingOld_fallback_text_chunking
    rw [he]
  · intro e he
    unfold doclingOld_fallback_text_chunking
    rw [he]
  · intro text pg tb fg he hp ht hf
    unfold doclingOld_fallback_text_chunking
    rw [he, hp, ht, hf]
  · intro text he h
    unfold doclingOld_fallback_text_chunking at h
    rw [he] at h
    cases hp : doc.pages with
    | lenRaises => exact Or.inl rfl
    | absent =>
      cases ht : doc.tables with
      | lenRaises => exact Or.inr (Or.inl rfl)
      | absent =>
        cases hf : doc.figures with
        | lenRaises => exact Or.inr (Or.inr (Or.inl rfl))
        | absent =>
          rw [hp, ht, hf] at h
          simp only [statExc, Prod.mk.injEq, List.map_eq_nil_iff] at h
          exact Or.inr (Or.inr (Or.inr
            ((make_overlapped_chunks_eq_nil_iff _ _ _ _ _).mp h.1)))
        | count n =>
          rw [hp, ht, hf] at h
          simp only [statExc, Prod.mk.injEq, List.map_eq_nil_iff] at h
          exact Or.inr (Or.inr (Or.inr
            ((make_overlapped_chunks_eq_nil_iff _ _ _ _ _).mp h.1)))
      | count n =>
        cases hf : doc.figures with
        | lenRaises => exact Or.inr (Or.inr (Or.inl rfl))
        | absent =>
          rw [hp, ht, hf] at h
          simp only [statExc, Prod.mk.injEq, List.map_eq_nil_iff] at h
          exact Or.inr (Or.inr (Or.inr
            ((make_overlapped_chunks_eq_nil_iff _ _ _ _ _).mp h.1)))
        | count n2 =>
          rw [hp, ht, hf] at h
          simp only [statExc, Prod.mk.injEq, List.map_eq_nil_iff] at h
          exact Or.inr (Or.inr (Or.inr
            ((make_overlapped_chunks_eq_nil_iff _ _ _ _ _).mp h.1)))
    | count n =>
      cases ht : doc.tables with
      | lenRaises => exact Or.inr (Or.inl rfl)
      | absent =>
        cases hf : doc.figures with
        | lenRaises => exact Or.inr (Or.inr (Or.inl rfl))
        | absent =>
          rw [hp, ht, hf] at h
          simp only [statExc, Prod.mk.injEq, List.map_eq_nil_iff] at h
          exact Or.inr (Or.inr (Or.inr
            ((make_overlapped_chunks_eq_nil_iff _ _ _ _ _).mp h.1)))
        | count n2 =>
          rw [hp, ht, hf] at h
          simp only [statExc, Prod.mk.injEq, List.map_eq_nil_iff] at h
          exact Or.inr (Or.inr (Or.inr
            ((make_overlapped_chunks_eq_nil_iff _ _ _ _ _).mp h.1)))
      | count n2 =>
        cases hf : doc.figures with
        | lenRaises => exact Or.inr (Or.inr (Or.inl rfl))
        | absent =>
          rw [hp, ht, hf] at h
          simp only [statExc, Prod.mk.injEq, List.map_eq_nil_iff] at h
          exact Or.inr (Or.inr (Or.inr
            ((make_overlapped_chunks_eq_nil_iff _ _ _ _ _).mp h.1)))
        | count n3 =>
          rw [hp, ht, hf] at h
          simp only [statExc, Prod.mk.injEq, List.map_eq_nil_iff] at h
          exact Or.inr (Or.inr (Or.inr
            ((make_overlapped_chunks_eq_nil_iff _ _ _ _ _).mp h.1)))

/-- C3 witness: the amended theorem at a document whose only export raises
`RuntimeError`, a handled class, absorbed by the fallback into `([], 0)`. -/
theorem C3_witness :
    doclingNew_fallback_text_chunking ⟨800, 400⟩
      ⟨.absent, .absent, .absent, .raises ⟨.runtimeError, "disk error"⟩,
       .count 0, .count 0, .count 0⟩
      .auto PyVal.nonev = .ok ([], 0) :=
  (C3_fallback_raise_and_empty_characterized ⟨800, 400⟩
      ⟨.absent, .absent, .absent, .raises ⟨.runtimeError, "disk error"⟩,
       .count 0, .count 0, .count 0⟩
      .auto PyVal.nonev).1
    ⟨.runtimeError, "Failed to export document as None: disk error"⟩ rfl rfl

/-- C4 counterexample: the pypdf `process_file` performs no emptiness
validation: with an empty byte payload and a reader that succeeds, the call
returns a `ProcessedContent` instead of raising an invalid-input error. -/
theorem C4_counterexample :
    (pypdf_process_file ⟨.pages [], 7⟩ [] "f.pdf" [] none false).toOption.isSome =
      true := rfl

/-- C4 (amended): only the newer docling provider validates emptiness: an
empty payload raises `ValueError("Empty file data after processing")` before
any processing and no partial result is produced; the pypdf provider performs
no such validation and, when the decoder accepts the payload, returns a
`ProcessedContent` for the empty payload. -/
theorem C4_empty_payload_validated_only_by_new_docling
    (cfg : DoclingConfig) (b : DoclingBackend) (w : DoclingWorld)
    (filename : String) (options : List (String × PyVal))
    (chunking_strategy : Option ChunkingStrategy) (include_embeddings : Bool)
    (pw : PyPDFWorld) (pageTexts : List String) :
    (doclingNew_process_file cfg b w [] filename options chunking_strategy
        include_embeddings =
      (.error { kind := .valueError, msg := "Empty file data after processing" },
       { created := false, deleted := false })) ∧
    (pw.reader = .pages pageTexts →
      (pypdf_process_file pw [] filename options chunking_strategy
          include_embeddings).toOption.isSome = true) := by
  constructor
  · rfl
  · intro h
    unfold pypdf_process_file
    rw [h]
    cases chunking_strategy <;> rfl

/-- C4 witness: the amended theorem at an empty payload. -/
theorem C4_witness :
    (doclingNew_process_file ⟨800, 400⟩ ⟨false⟩
        ⟨true, none, false, none, none, .invalid, .yields [], "v", 0⟩
        [] "g.pdf" [] none false =
      (.error { kind := .valueError, msg := "Empty file data after processing" },
       { created := false, deleted := false })) ∧
    ((pypdf_process_file ⟨.pages ["x"], 3⟩ [] "g.pdf" [] none
        false).toOption.isSome = true) := by
  have h := C4_empty_payload_validated_only_by_new_docling ⟨800, 400⟩ ⟨false⟩
    ⟨true, none, false, none, none, .invalid, .yields [], "v", 0⟩
    "g.pdf" [] none false ⟨.pages ["x"], 3⟩ ["x"]
  exact ⟨h.1, h.2 rfl⟩

/-- C5 counterexample: in the older docling provider, chunking that fails with
zero recoverable chunks (no native chunker, fallback export fails) still
yields a present empty `chunks` list, not an absent field. -/
theorem C5_counterexample :
    ((doclingOld_process_file ⟨false⟩
        ⟨true, none, false, none, none,
         .ok ⟨.absent, .returns "hello", .absent, .absent, .count 0, .count 0, .count 0⟩,
         .yields [], "v", 0⟩
        [9] "f.pdf" [("format", PyVal.str "html")]
        (some (.static 3 1)) false).1).map
      (fun r => (r.content, r.chunks)) = Except.ok ("hello", some []) := rfl

theorem doclingOld_afterConvert_chunks_none (b : DoclingBackend) (w : DoclingWorld)
    (fd : List Nat) (fn : String) (opts : List (String × PyVal)) (flag : Bool)
    (doc : DocHandle) (r : ProcessedContent String)
    (h : doclingOld_afterConvert b w fd fn opts none flag doc = .ok r) :
    r.chunks = none := by
  unfold doclingOld_afterConvert at h
  dsimp only [] at h
  cases hex : doclingOld_export doc ((alookup "format" opts).getD (PyVal.str "markdown")) with
  | error e => rw [hex] at h; simp at h
  | ok content =>
    rw [hex] at h
    simp only [] at h
    repeat' split at h
    all_goals (try (injection h with h; subst h; rfl))
    all_goals injection h

theorem doclingOld_afterConvert_chunks_some (b : DoclingBackend) (w : DoclingWorld)
    (fd : List Nat) (fn : String) (opts : List (String × PyVal)) (flag : Bool)
    (doc : DocHandle) (st : ChunkingStrategy) (r : ProcessedContent String)
    (h : doclingOld_afterConvert b w fd fn opts (some st) flag doc = .ok r) :
    r.chunks = some (doclingOld_create_docling_chunks b.hasChunker w.native doc st
      ((alookup "format" opts).getD (PyVal.str "markdown"))).1 := by
  unfold doclingOld_afterConvert at h
  dsimp only [] at h
  cases hex : doclingOld_export doc ((alookup "format" opts).getD (PyVal.str "markdown")) with
  | error e => rw [hex] at h; simp at h
  | ok content =>
    rw [hex] at h
    simp only [] at h
    repeat' split at h
    all_goals (try (injection h with h; subst h; rfl))
    all_goals injection h

/-- C5 (amended): `chunks` is absent iff no chunking strategy was supplied;
when a strategy is supplied `chunks` is always present — as the produced chunk
sequence, which may be empty when chunking failed with zero recoverable
chunks, and is non-empty whenever at least one chunk was produced. -/
theorem C5_chunks_absent_iff_no_strategy
    (pw : PyPDFWorld) (fd : List Nat) (fn : String) (opts : List (String × PyVal))
    (strat : Option ChunkingStrategy) (flag : Bool)
    (b : DoclingBackend) (w : DoclingWorld) (ts : TempState)
    (r : ProcessedContent ChunkRec) (r2 : ProcessedContent String) :
    (pypdf_process_file pw fd fn opts strat flag = .ok r →
      (r.chunks = none ↔ strat = none)) ∧
    (doclingOld_process_file b w fd fn opts strat flag = (.ok r2, ts) →
      (r2.chunks = none ↔ strat = none)) := by
  constructor
  · intro h
    unfold pypdf_process_file at h
    split at h
    · simp at h
    · split at h <;> simp at h
    · cases strat with
      | none =>
        simp only [Except.ok.injEq] at h
        subst h
        simp
      | some st =>
        simp only [Except.ok.injEq] at h
        subst h
        simp
  · intro h
    unfold doclingOld_process_file at h
    repeat' split at h
    all_goals simp only [Prod.mk.injEq, Except.ok.injEq] at h
    all_goals (try exact absurd h.1 (by simp))
    all_goals obtain ⟨h1, h2⟩ := h
    all_goals subst h1
    all_goals rename_i hac
    all_goals cases strat with
    | none => simp [doclingOld_afterConvert_chunks_none _ _ _ _ _ _ _ _ hac]
    | some st => simp [doclingOld_afterConvert_chunks_some _ _ _ _ _ _ _ _ _ hac]

/-- C5 witness: the amended theorem on a pypdf run with a strategy and a
non-empty text, where `chunks` is present. -/
theorem C5_witness :
    (pypdf_process_file ⟨.pages ["ab"], 1⟩ [7] "w.pdf" [] (some (.static 9 0)) false =
        .ok ((pypdf_process_file ⟨.pages ["ab"], 1⟩ [7] "w.pdf" []
          (some (.static 9 0)) false).toOption.getD ⟨"", none, none, []⟩) →
      (((pypdf_process_file ⟨.pages ["ab"], 1⟩ [7] "w.pdf" []
          (some (.static 9 0)) false).toOption.getD ⟨"", none, none, []⟩).chunks = none ↔
        (some (ChunkingStrategy.static 9 0) : Option ChunkingStrategy) = none)) ∧
    ((((pypdf_process_file ⟨.pages ["ab"], 1⟩ [7] "w.pdf" []
          (some (.static 9 0)) false).toOption.getD ⟨"", none, none, []⟩).chunks = none ↔
        (some (ChunkingStrategy.static 9 0) : Option ChunkingStrategy) = none)) := by
  have h := (C5_chunks_absent_iff_no_strategy ⟨.pages ["ab"], 1⟩ [7] "w.pdf" []
    (some (.static 9 0)) false ⟨false⟩
    ⟨true, none, false, none, none, .invalid, .yields [], "v", 0⟩
    ⟨false, false⟩
    ((pypdf_process_file ⟨.pages ["ab"], 1⟩ [7] "w.pdf" []
      (some (.static 9 0)) false).toOption.getD ⟨"", none, none, []⟩)
    ⟨"", none, none, []⟩).1
  exact ⟨h, h rfl⟩

/-- C6: for every successfully decoded document whose plain-text export
returns a string, any format string outside markdown/html/json dispatches (via
the static format-to-method mapping in the newer provider, and the inline
dispatch of the older provider) to the `export_to_text` operation and returns
its result without raising an error. -/
theorem C6_unknown_format_falls_back_to_text (fmt : String) (doc : DocHandle)
    (s : String)
    (h1 : fmt ≠ "markdown") (h2 : fmt ≠ "html") (h3 : fmt ≠ "json")
    (ht : doc.export_to_text = ExpMeth.returns s) :
    _export_document_content doc (PyVal.str fmt) = .ok s ∧
    doclingOld_export doc (PyVal.str fmt) = .ok s := by
  constructor
  · simp [_export_document_content, methodOf, export_methods, alookup,
      h1, h2, h3, ht]
  · simp [doclingOld_export, h1, h2, h3, ht]

/-- C6 witness: the theorem at the unrecognized format string `"xml"`. -/
theorem C6_witness :
    _export_document_content
      ⟨.absent, .absent, .absent, .returns "plain", .count 0, .count 0, .count 0⟩
      (PyVal.str "xml") = .ok "plain" ∧
    doclingOld_export
      ⟨.absent, .absent, .absent, .returns "plain", .count 0, .count 0, .count 0⟩
      (PyVal.str "xml") = .ok "plain" :=
  C6_unknown_format_falls_back_to_text "xml"
    ⟨.absent, .absent, .absent, .returns "plain", .count 0, .count 0, .count 0⟩
    "plain" (by decide) (by decide) (by decide) rfl

/-- C7 counterexample: the pypdf backend constructs successfully without
probing for the pypdf library (the import happens inside `process_file`), so a
missing library surfaces as a per-request `RuntimeError`, contradicting that a
successfully constructed backend never fails a request for a missing
capability. -/
theorem C7_counterexample :
    pypdf_init ⟨800, 400⟩ = ⟨⟨800, 400⟩⟩ ∧
    pypdf_process_file ⟨.notInstalled, 0⟩ [9] "f.pdf" [] none false =
      .error { kind := .runtimeError
               msg := "PyPDF not installed. Run: pip install pypdf" } :=
  ⟨rfl, rfl⟩

/-- C7 (amended): the docling provider discovers a missing decoder capability
at construction time (`ImportError` from `_initialize_docling`) and not per
request, while the pypdf provider defers its import to `process_file`: pypdf
construction always succeeds and a missing pypdf library makes every
`process_file` call raise the "not installed" `RuntimeError`. -/
theorem C7_capability_failures (w : DoclingWorld) (cfg : PyPDFConfig)
    (el : Nat) (fd : List Nat) (fn : String) (opts : List (String × PyVal))
    (strat : Option ChunkingStrategy) (flag : Bool)
    (hw : w.doclingInstalled = false) :
    doclingOld_init w =
      .error { kind := .importError
               msg := "Docling not installed. Run: pip install docling" } ∧
    pypdf_init cfg = { config := cfg } ∧
    pypdf_process_file ⟨.notInstalled, el⟩ fd fn opts strat flag =
      .error { kind := .runtimeError
               msg := "PyPDF not installed. Run: pip install pypdf" } := by
  refine ⟨?_, rfl, rfl⟩
  unfold doclingOld_init
  rw [hw]
  rfl

/-- C7 witness: the amended theorem at a world without the docling library. -/
theorem C7_witness :
    doclingOld_init ⟨false, none, false, none, none, .invalid, .yields [], "v", 0⟩ =
      .error { kind := .importError
               msg := "Docling not installed. Run: pip install docling" } ∧
    pypdf_init ⟨801, 401⟩ = { config := ⟨801, 401⟩ } ∧
    pypdf_process_file ⟨.notInstalled, 1⟩ [] "w.pdf" [] none true =
      .error { kind := .runtimeError
               msg := "PyPDF not installed. Run: pip install pypdf" } :=
  C7_capability_failures ⟨false, none, false, none, none, .invalid, .yields [], "v", 0⟩
    ⟨801, 401⟩ 1 [] "w.pdf" [] none true rfl

/-- C8 counterexample: a pypdf decode failure for file `report.pdf` raises
`RuntimeError("PyPDF processing failed: bad xref")`, whose message does not
contain the filename. -/
theorem C8_counterexample :
    pypdf_process_file ⟨.readFails ⟨.generic, "bad xref"⟩, 0⟩ [9] "report.pdf"
      [] none false =
      .error { kind := .runtimeError, msg := "PyPDF processing failed: bad xref" } ∧
    strContainsStr "PyPDF processing failed: bad xref" "report.pdf" = false :=
  ⟨rfl, by decide⟩

/-- C8 (amended): every error thrown out of `process_file` is a single
`RuntimeError` wrapper whose message names the failing stage and embeds the
message of the underlying cause; the filename goes to the log, not into the
raised message (pypdf and older docling providers). -/
theorem C8_errors_name_stage_and_cause
    (pw : PyPDFWorld) (b : DoclingBackend) (w : DoclingWorld) (fd : List Nat)
    (fn : String) (opts : List (String × PyVal)) (strat : Option ChunkingStrategy)
    (flag : Bool) (e : Exc) (e2 : Exc) (ts : TempState) :
    (pypdf_process_file pw fd fn opts strat flag = .error e →
      e.kind = ExcKind.runtimeError ∧
      (e.msg = "PyPDF not installed. Run: pip install pypdf" ∨
       ∃ c, e.msg = "PyPDF processing failed: " ++ c)) ∧
    (doclingOld_process_file b w fd fn opts strat flag = (.error e2, ts) →
      e2.kind = ExcKind.runtimeError ∧
      ∃ c, e2.msg = "Docling processing failed: " ++ c) := by
  constructor
  · intro h
    unfold pypdf_process_file at h
    split at h
    · injection h with h; subst h; exact ⟨rfl, Or.inl rfl⟩
    · split at h
      · injection h with h; subst h; exact ⟨rfl, Or.inl rfl⟩
      · injection h with h; subst h; exact ⟨rfl, Or.inr ⟨_, rfl⟩⟩
    · cases strat <;> simp at h
  · intro h
    unfold doclingOld_process_file at h
    repeat' split at h
    all_goals simp only [Prod.mk.injEq] at h
    all_goals obtain ⟨h1, h2⟩ := h
    all_goals (try (injection h1 with h1; subst h1; exact ⟨rfl, _, rfl⟩))
    all_goals injection h1

/-- C8 witness: the amended theorem at a failing pypdf decode and a failing
docling scratch-file write. -/
theorem C8_witness :
    (ExcKind.runtimeError = ExcKind.runtimeError ∧
      ("PyPDF processing failed: eof" = "PyPDF not installed. Run: pip install pypdf" ∨
       ∃ c, "PyPDF processing failed: eof" = "PyPDF processing failed: " ++ c)) ∧
    (ExcKind.runtimeError = ExcKind.runtimeError ∧
      ∃ c, "Docling processing failed: boom" = "Docling processing failed: " ++ c) := by
  have h := C8_errors_name_stage_and_cause ⟨.readFails ⟨.generic, "eof"⟩, 0⟩ ⟨false⟩
    ⟨true, none, false, none, some "boom", .invalid, .yields [], "v", 0⟩
    [1] "x.pdf" [] none false
    ⟨.runtimeError, "PyPDF processing failed: eof"⟩
    ⟨.runtimeError, "Docling processing failed: boom"⟩ ⟨true, false⟩
  exact ⟨h.1 rfl, h.2 rfl⟩

/-- C9 counterexample: when writing the payload to the already-created scratch
file fails, the newer provider raises the temporary-file `RuntimeError` and
the created scratch file is never unlinked: an exit path that leaks the file. -/
theorem C9_counterexample :
    doclingNew_process_file ⟨800, 400⟩ ⟨false⟩
      ⟨true, none, false, none, some "disk full", .invalid, .yields [], "v", 0⟩
      [1] "f.pdf" [] none false =
      (.error { kind := .runtimeError
                msg := "Failed to create temporary file: disk full" },
       { created := true, deleted := false }) := rfl

/-- C9 (amended): provided the payload write to the scratch file succeeds, the
temporary file is unlinked on every exit path of both docling providers,
success, recoverable failure or unexpected exception alike; a failing payload
write, however, leaves the created file behind. -/
theorem C9_temp_released_when_write_succeeds (cfg : DoclingConfig)
    (b : DoclingBackend) (w : DoclingWorld) (fd : List Nat) (fn : String)
    (opts : List (String × PyVal)) (strat : Option ChunkingStrategy) (flag : Bool)
    (hwr : w.tmpWrite = none) :
    ((doclingOld_process_file b w fd fn opts strat flag).2.created = true →
      (doclingOld_process_file b w fd fn opts strat flag).2.deleted = true) ∧
    ((doclingNew_process_file cfg b w fd fn opts strat flag).2.created = true →
      (doclingNew_process_file cfg b w fd fn opts strat flag).2.deleted = true) := by
  constructor
  · unfold doclingOld_process_file
    rw [hwr]
    repeat' split
    all_goals simp_all
  · unfold doclingNew_process_file
    rw [hwr]
    repeat' split
    all_goals simp_all

/-- C9 witness: the amended theorem on a successful run. -/
theorem C9_witness :
    ((doclingOld_process_file ⟨false⟩
        ⟨true, none, false, none, none,
         .ok ⟨.returns "md", .absent, .absent, .absent, .count 1, .count 2, .count 3⟩,
         .yields [], "v", 2⟩
        [1] "a.pdf" [] none false).2.created = true →
      (doclingOld_process_file ⟨false⟩
        ⟨true, none, false, none, none,
         .ok ⟨.returns "md", .absent, .absent, .absent, .count 1, .count 2, .count 3⟩,
         .yields [], "v", 2⟩
        [1] "a.pdf" [] none false).2.deleted = true) ∧
    ((doclingNew_process_file ⟨800, 400⟩ ⟨false⟩
        ⟨true, none, false, none, none,
         .ok ⟨.returns "md", .absent, .absent, .absent, .count 1, .count 2, .count 3⟩,
         .yields [], "v", 2⟩
        [1] "a.pdf" [] none false).2.created = true →
      (doclingNew_process_file ⟨800, 400⟩ ⟨false⟩
        ⟨true, none, false, none, none,
         .ok ⟨.returns "md", .absent, .absent, .absent, .count 1, .count 2, .count 3⟩,
         .yields [], "v", 2⟩
        [1] "a.pdf" [] none false).2.deleted = true) :=
  C9_temp_released_when_write_succeeds ⟨800, 400⟩ ⟨false⟩
    ⟨true, none, false, none, none,
     .ok ⟨.returns "md", .absent, .absent, .absent, .count 1, .count 2, .count 3⟩,
     .yields [], "v", 2⟩
    [1] "a.pdf" [] none false rfl

theorem doclingOld_fallback_count (doc : DocHandle) (s : ChunkingStrategy)
    (f : PyVal) :
    (doclingOld_fallback_text_chunking doc s f).2 =
      (doclingOld_fallback_text_chunking doc s f).1.length := by
  unfold doclingOld_fallback_text_chunking
  repeat' split
  all_goals simp

theorem doclingOld_create_count (hc : Bool) (nb : NativeChunkerBehavior)
    (doc : DocHandle) (s : ChunkingStrategy) (f : PyVal) :
    (doclingOld_create_docling_chunks hc nb doc s f).2 =
      (doclingOld_create_docling_chunks hc nb doc s f).1.length := by
  unfold doclingOld_create_docling_chunks
  repeat' split
  all_goals (try exact doclingOld_fallback_count doc s f)
  all_goals simp

theorem doclingNew_fallback_count (cfg : DoclingConfig) (doc : DocHandle)
    (s : ChunkingStrategy) (f : PyVal) (pr : List ChunkRec × Nat)
    (h : doclingNew_fallback_text_chunking cfg doc s f = .ok pr) :
    pr.2 = pr.1.length := by
  unfold doclingNew_fallback_text_chunking at h
  repeat' split at h
  all_goals (try (injection h with h; subst h; simp))
  all_goals injection h

theorem doclingNew_create_count (cfg : DoclingConfig)
    (ch : Option NativeChunkerBehavior) (doc : DocHandle) (s : ChunkingStrategy)
    (f : PyVal) (pr : List ChunkRec × Nat)
    (h : doclingNew_create_docling_chunks cfg ch doc s f = .ok pr) :
    pr.2 = pr.1.length := by
  unfold doclingNew_create_docling_chunks at h
  repeat' split at h
  all_goals (try (exact doclingNew_fallback_count _ _ _ _ _ h))
  all_goals (try (injection h with h; subst h; simp))
  all_goals injection h

theorem doclingOld_afterConvert_metadata (b : DoclingBackend) (w : DoclingWorld)
    (fd : List Nat) (fn : String) (opts : List (String × PyVal))
    (strat : Option ChunkingStrategy) (flag : Bool) (doc : DocHandle)
    (r : ProcessedContent String)
    (h : doclingOld_afterConvert b w fd fn opts strat flag doc = .ok r) :
    alookup "chunk_count" r.metadata = some (MetaVal.nat (optLen r.chunks)) ∧
    alookup "content_length" r.metadata = some (MetaVal.nat r.content.length) ∧
    alookup "file_size_bytes" r.metadata = some (MetaVal.nat fd.length) := by
  unfold doclingOld_afterConvert at h
  dsimp only [] at h
  cases hex : doclingOld_export doc ((alookup "format" opts).getD (PyVal.str "markdown")) with
  | error e => rw [hex] at h; injection h
  | ok content =>
    rw [hex] at h
    simp only [] at h
    repeat' split at h
    all_goals
      (try
        (injection h with h
         subst h
         simp [alookup, optLen, doclingOld_create_count]))
    all_goals injection h

theorem doclingNew_afterConvert_metadata (cfg : DoclingConfig)
    (b : DoclingBackend) (w : DoclingWorld) (fd : List Nat) (fn : String)
    (opts : List (String × PyVal)) (strat : Option ChunkingStrategy) (flag : Bool)
    (doc : DocHandle) (r : ProcessedContent ChunkRec)
    (h : doclingNew_afterConvert cfg b w fd fn opts strat flag doc = .ok r) :
    alookup "chunk_count" r.metadata = some (MetaVal.nat (optLen r.chunks)) ∧
    alookup "content_length" r.metadata = some (MetaVal.nat r.content.length) ∧
    alookup "file_size_bytes" r.metadata = some (MetaVal.nat fd.length) := by
  unfold doclingNew_afterConvert at h
  dsimp only [] at h
  cases hex : doclingNew_export_stage doc fn ((alookup "format" opts).getD (PyVal.str "markdown")) with
  | error e => rw [hex] at h; injection h
  | ok content =>
    rw [hex] at h
    simp only [] at h
    repeat' split at h
    all_goals
      (try
        (injection h with h
         subst h
         simp [alookup, optLen]))
    all_goals try
      (rename_i hcc
       split at hcc
       · injection hcc with hcc
         subst hcc
         rfl
       · split at hcc
         · rename_i rr hrr
           injection hcc with hcc
           subst hcc
           simp [doclingNew_create_count _ _ _ _ _ _ hrr]
         · injection hcc)
    all_goals injection h

/-- C10: in every successfully returned `ProcessedContent` of the three
providers, `metadata["chunk_count"]` equals the number of chunks (0 when
`chunks` is null), `metadata["content_length"]` equals the length of the
returned content, and `metadata["file_size_bytes"]` equals the length of the
input payload. -/
theorem C10_metadata_consistent
    (pw : PyPDFWorld) (cfg : DoclingConfig) (b : DoclingBackend) (w : DoclingWorld)
    (fd : List Nat) (fn : String) (opts : List (String × PyVal))
    (strat : Option ChunkingStrategy) (flag : Bool) (ts ts2 : TempState)
    (r : ProcessedContent ChunkRec) (r2 : ProcessedContent String)
    (r3 : ProcessedContent ChunkRec) :
    (pypdf_process_file pw fd fn opts strat flag = .ok r →
      alookup "chunk_count" r.metadata = some (MetaVal.nat (optLen r.chunks)) ∧
      alookup "content_length" r.metadata = some (MetaVal.nat r.content.length) ∧
      alookup "file_size_bytes" r.metadata = some (MetaVal.nat fd.length)) ∧
    (doclingOld_process_file b w fd fn opts strat flag = (.ok r2, ts) →
      alookup "chunk_count" r2.metadata = some (MetaVal.nat (optLen r2.chunks)) ∧
      alookup "content_length" r2.metadata = some (MetaVal.nat r2.content.length) ∧
      alookup "file_size_bytes" r2.metadata = some (MetaVal.nat fd.length)) ∧
    (doclingNew_process_file cfg b w fd fn opts strat flag = (.ok r3, ts2) →
      alookup "chunk_count" r3.metadata = some (MetaVal.nat (optLen r3.chunks)) ∧
      alookup "content_length" r3.metadata = some (MetaVal.nat r3.content.length) ∧
      alookup "file_size_bytes" r3.metadata = some (MetaVal.nat fd.length)) := by
  refine ⟨?_, ?_, ?_⟩
  · intro h
    unfold pypdf_process_file at h
    split at h
    · injection h
    · split at h <;> injection h
    · cases strat with
      | none =>
        simp only [Except.ok.injEq] at h
        subst h
        simp [alookup, optLen]
      | some st =>
        simp only [Except.ok.injEq] at h
        subst h
        simp [alookup, optLen]
  · intro h
    unfold doclingOld_process_file at h
    repeat' split at h
    all_goals simp only [Prod.mk.injEq] at h
    all_goals obtain ⟨h1, h2⟩ := h
    all_goals try
      (injection h1 with h1
       subst h1
       rename_i hac
       exact doclingOld_afterConvert_metadata _ _ _ _ _ _ _ _ _ hac)
    all_goals injection h1
  · intro h
    unfold doclingNew_process_file at h
    repeat' split at h
    all_goals simp only [Prod.mk.injEq] at h
    all_goals obtain ⟨h1, h2⟩ := h
    all_goals try
      (injection h1 with h1
       subst h1
       rename_i hac
       exact doclingNew_afterConvert_metadata _ _ _ _ _ _ _ _ _ _ hac)
    all_goals injection h1

/-- C10 witness: the theorem on a successful run of each provider. -/
theorem C10_witness :
    (alookup "chunk_count"
        ((pypdf_process_file ⟨.pages ["hi"], 4⟩ [1, 2] "m.pdf" [] none
          false).toOption.getD ⟨"", none, none, []⟩).metadata =
      some (MetaVal.nat (optLen
        ((pypdf_process_file ⟨.pages ["hi"], 4⟩ [1, 2] "m.pdf" [] none
          false).toOption.getD ⟨"", none, none, []⟩).chunks)) ∧
     alookup "content_length"
        ((pypdf_process_file ⟨.pages ["hi"], 4⟩ [1, 2] "m.pdf" [] none
          false).toOption.getD ⟨"", none, none, []⟩).metadata =
      some (MetaVal.nat
        ((pypdf_process_file ⟨.pages ["hi"], 4⟩ [1, 2] "m.pdf" [] none
          false).toOption.getD ⟨"", none, none, []⟩).content.length) ∧
     alookup "file_size_bytes"
        ((pypdf_process_file ⟨.pages ["hi"], 4⟩ [1, 2] "m.pdf" [] none
          false).toOption.getD ⟨"", none, none, []⟩).metadata =
      some (MetaVal.nat ([1, 2] : List Nat).length)) ∧
    (alookup "chunk_count"
        (((doclingOld_process_file ⟨false⟩
          ⟨true, none, false, none, none,
           .ok ⟨.returns "md", .absent, .absent, .absent, .count 1, .count 0, .count 0⟩,
           .yields [], "v", 2⟩
          [1, 2] "m.pdf" [] none false).1).toOption.getD ⟨"", none, none, []⟩).metadata =
      some (MetaVal.nat (optLen
        (((doclingOld_process_file ⟨false⟩
          ⟨true, none, false, none, none,
           .ok ⟨.returns "md", .absent, .absent, .absent, .count 1, .count 0, .count 0⟩,
           .yields [], "v", 2⟩
          [1, 2] "m.pdf" [] none false).1).toOption.getD ⟨"", none, none, []⟩).chunks)) ∧
     alookup "content_length"
        (((doclingOld_process_file ⟨false⟩
          ⟨true, none, false, none, none,
           .ok ⟨.returns "md", .absent, .absent, .absent, .count 1, .count 0, .count 0⟩,
           .yields [], "v", 2⟩
          [1, 2] "m.pdf" [] none false).1).toOption.getD ⟨"", none, none, []⟩).metadata =
      some (MetaVal.nat
        (((doclingOld_process_file ⟨false⟩
          ⟨true, none, false, none, none,
           .ok ⟨.returns "md", .absent, .absent, .absent, .count 1, .count 0, .count 0⟩,
           .yields [], "v", 2⟩
          [1, 2] "m.pdf" [] none false).1).toOption.getD
            ⟨"", none, none, []⟩).content.length) ∧
     alookup "file_size_bytes"
        (((doclingOld_process_file ⟨false⟩
          ⟨true, none, false, none, none,
           .ok ⟨.returns "md", .absent, .absent, .absent, .count 1, .count 0, .count 0⟩,
           .yields [], "v", 2⟩
          [1, 2] "m.pdf" [] none false).1).toOption.getD ⟨"", none, none, []⟩).metadata =
      some (MetaVal.nat ([1, 2] : List Nat).length)) := by
  have h1 := (C10_metadata_consistent ⟨.pages ["hi"], 4⟩ ⟨800, 400⟩ ⟨false⟩
    ⟨true, none, false, none, none,
     .ok ⟨.returns "md", .absent, .absent, .absent, .count 1, .count 0, .count 0⟩,
     .yields [], "v", 2⟩
    [1, 2] "m.pdf" [] none false ⟨true, true⟩ ⟨true, true⟩
    ((pypdf_process_file ⟨.pages ["hi"], 4⟩ [1, 2] "m.pdf" [] none
      false).toOption.getD ⟨"", none, none, []⟩)
    (((doclingOld_process_file ⟨false⟩
      ⟨true, none, false, none, none,
       .ok ⟨.returns "md", .absent, .absent, .absent, .count 1, .count 0, .count 0⟩,
       .yields [], "v", 2⟩
      [1, 2] "m.pdf" [] none false).1).toOption.getD ⟨"", none, none, []⟩)
    ⟨"", none, none, []⟩)
  exact ⟨h1.1 rfl, h1.2.1 rfl⟩
